import Mathlib

/-!
Verification of the Robomesh fleet-coordination hub core against its
specification.  The Go source is shallowly embedded: Go maps become
association lists, handler/robot records become structures, channel state
is explicit, and fallible paths return explicit status values (including a
constructor for a Go runtime panic).
-/

namespace Robomesh

/-! ### Go map primitives

A Go `map[string]V` is modelled as an association list with unique keys.
`goGet` models `m[k]` (missing key yields the zero value, i.e. `none` for an
interface-valued map), `goSet` models `m[k] = v`, and `goDelete` models
`delete(m, k)` (a no-op when the key is absent). -/

def goGet {κ α : Type} [DecidableEq κ] : List (κ × α) → κ → Option α
  | [], _ => none
  | (k', v) :: rest, k => if k' = k then some v else goGet rest k

def goSet {κ α : Type} [DecidableEq κ] : List (κ × α) → κ → α → List (κ × α)
  | [], k, v => [(k, v)]
  | (k', v') :: rest, k, v =>
      if k' = k then (k, v) :: rest else (k', v') :: goSet rest k v

def goDelete {κ α : Type} [DecidableEq κ] : List (κ × α) → κ → List (κ × α)
  | [], _ => []
  | (k', v') :: rest, k => if k' = k then rest else (k', v') :: goDelete rest k

/-! ### Robot model (shared/types.go, shared/base_robot.go)

A `RobotHandler` value stands for one `shared.RobotHandler` interface value.
The `hid` field models pointer identity (Go compares interface values by
identity here).  `deviceID` and `ip` are the fields of the embedded robot
record set by the factory at construction; the robot manager never mutates
them.  `BaseRobotHandler.GetIP` returns `br.Robot.GetIP()`, the recorded
`ip` field. -/

structure RobotHandler where
  hid : Nat
  deviceID : String
  ip : String
deriving DecidableEq, Repr

def RobotHandler.GetDeviceID (h : RobotHandler) : String := h.deviceID

def RobotHandler.GetIP (h : RobotHandler) : String := h.ip

/-- Projection of a robot record as returned by `handler.GetRobot()`. -/
structure Robot where
  deviceID : String
  ip : String
deriving DecidableEq, Repr

def RobotHandler.GetRobot (h : RobotHandler) : Robot := ⟨h.deviceID, h.ip⟩

/-! ### Robot manager errors (shared/errors.go) -/

inductive RMError where
  | robotAlreadyExists
  | robotNotFound
  | ipAlreadyInUse
  | robotMismatch
  | robotTransfer
  | invalidRobotType
  | createConnHandler
  | noRobotTypeConnHandler
  | noDisconnectChannel
  | robotNotAccepted
  | invalidInput
deriving DecidableEq, Repr

/-- Outcome of a manager mutation: normal return, an error value, or a Go
runtime panic (e.g. calling a method on a nil interface). -/
inductive RMStatus where
  | ok
  | err (e : RMError)
  | panic
deriving DecidableEq, Repr

/-! ### Robot manager state and operations
(robot_manager, dual-index version documented as "centralized management";
`AddRobot` / `RemoveRobot` / `GetRobot` translated line by line) -/

structure RMState where
  robotsByID : List (String × RobotHandler)
  robotsByIP : List (String × RobotHandler)
deriving DecidableEq, Repr

def RMState.empty : RMState := ⟨[], []⟩

/-- `RemoveRobot(deviceId, ip)`.  Faithful translation: the dual-identifier
branch compares `rm.robotsByID[deviceId] != rm.robotsByIP[ip]` on the raw
(nil-able) interface values; when both lookups miss, the two nil values
compare equal and the code then invokes `GetDisconnectChannel` on the nil
handler, a runtime panic.  (`SafeClose` of the disconnect channel is a side
effect on the channel, not on the index maps, and is not tracked here.) -/
def RemoveRobot (rm : RMState) (deviceId ip : String) : RMState × RMStatus :=
  if deviceId = "" ∧ ip = "" then
    (rm, .err .invalidInput)
  else if deviceId ≠ "" ∧ ip ≠ "" then
    if goGet rm.robotsByID deviceId ≠ goGet rm.robotsByIP ip then
      (rm, .err .robotMismatch)
    else
      match goGet rm.robotsByID deviceId with
      | none => (rm, .panic)   -- handler.GetDisconnectChannel() on a nil interface
      | some _ =>
          (⟨goDelete rm.robotsByID deviceId, goDelete rm.robotsByIP ip⟩, .ok)
  else if deviceId ≠ "" then
    match goGet rm.robotsByID deviceId with
    | some handler =>
        (⟨goDelete rm.robotsByID deviceId,
          goDelete rm.robotsByIP handler.GetIP⟩, .ok)
    | none => (rm, .err .robotNotFound)
  else if ip ≠ "" then
    match goGet rm.robotsByIP ip with
    | some handler =>
        (⟨goDelete rm.robotsByID handler.GetDeviceID,
          goDelete rm.robotsByIP ip⟩, .ok)
    | none => (rm, .err .robotNotFound)
  else
    (rm, .err .invalidInput)

/-- `AddRobot(deviceId, ip, handler)` with its `goto retry` loop made
explicit through fuel.  One retry always suffices sequentially: the
recursive `RemoveRobot("", ip)` removes the conflicting IP entry, so the
next iteration takes the `none` branch.  The fuel-0 case is unreachable;
it is mapped to `panic` so that it can never be mistaken for a result the
Go code produces.

Transfer branch, in source order: `rm.robotsByIP[ip] = rm.robotsByID[deviceId]`
then `delete(rm.robotsByIP, rm.robotsByID[deviceId].GetIP())` — the old
handler object is retained (the `handler` argument is dropped) and the
deletion key is the handler's *recorded* IP field. -/
def AddRobotFuel : Nat → RMState → String → String → RobotHandler → RMState × RMStatus
  | 0, rm, _, _, _ => (rm, .panic)
  | Nat.succ fuel, rm, deviceId, ip, handler =>
    match goGet rm.robotsByIP ip with
    | some existingHandler =>
        if existingHandler.GetDeviceID ≠ deviceId then
          AddRobotFuel fuel (RemoveRobot rm "" ip).fst deviceId ip handler
        else
          (rm, .err .robotAlreadyExists)
    | none =>
        match goGet rm.robotsByID deviceId with
        | some oldHandler =>
            ({ rm with
                robotsByIP :=
                  goDelete (goSet rm.robotsByIP ip oldHandler) oldHandler.GetIP },
             .err .robotTransfer)
        | none =>
            (⟨goSet rm.robotsByID deviceId handler,
              goSet rm.robotsByIP ip handler⟩, .ok)

def AddRobot (rm : RMState) (deviceId ip : String) (handler : RobotHandler) :
    RMState × RMStatus :=
  AddRobotFuel 2 rm deviceId ip handler

/-- Result of `GetRobot`. -/
inductive GetResult where
  | ok (r : Robot)
  | err (e : RMError)
  | panic
deriving DecidableEq, Repr

/-- `GetRobot(deviceId, ip)`.  Same dual-identifier case analysis as
`RemoveRobot`; when both identifiers are supplied and both lookups miss, the
nil interface values compare equal and `rm.robotsByID[deviceId].GetRobot()`
dereferences a nil interface: a runtime panic. -/
def GetRobot (rm : RMState) (deviceId ip : String) : GetResult :=
  if deviceId ≠ "" ∧ ip ≠ "" then
    if goGet rm.robotsByID deviceId ≠ goGet rm.robotsByIP ip then
      .err .robotMismatch
    else
      match goGet rm.robotsByID deviceId with
      | none => .panic   -- rm.robotsByID[deviceId].GetRobot() on a nil interface
      | some h => .ok h.GetRobot
  else if deviceId ≠ "" then
    match goGet rm.robotsByID deviceId with
    | some h => .ok h.GetRobot
    | none => .err .robotNotFound
  else if ip ≠ "" then
    match goGet rm.robotsByIP ip with
    | some h => .ok h.GetRobot
    | none => .err .robotNotFound
  else
    .err .invalidInput

/-! ### Registration workflow (robot_manager registration file, `RobotManager_t`)

The admission wait blocks on the decision event, the main context, and
`time.After(shared.REGISTERING_WAIT_TIMEOUT)`.  The `Decision` value is the
outcome of that three-way `select`: `fired payload` is the decision event
arriving with the given data (`none` models a non-`bool` payload, which the
subscription handler coerces to `false`), `cancelled` the main-context
cancellation, `timeout` the expiry of the 30-minute timeout. -/

/-- `shared.REGISTERING_WAIT_TIMEOUT = 30 * time.Minute`, in minutes. -/
def REGISTERING_WAIT_TIMEOUT_MINUTES : Nat := 30

structure RegisteringRobot where
  deviceID : String
  ip : String
  robotType : String
deriving DecidableEq, Repr

/-- `fmt.Sprintf("register.%s%s%s", deviceID, ip, robotType)`. -/
def registeringEventString (r : RegisteringRobot) : String :=
  "register." ++ r.deviceID ++ r.ip ++ r.robotType

/-- Event type of `NewEventRegisteringRobot`. -/
def REGISTERING_ROBOT_EVENT : String := "robot_manager.registering_robot"

inductive Decision where
  | fired (payload : Option Bool)
  | cancelled
  | timeout
deriving DecidableEq, Repr

/-- The value `accepted` computed by the `select` in
`handleRegisteringRobotEvent`: the decision event's data when it is a
`bool` (a non-`bool` is coerced to `false` by the subscription handler);
`false` on cancellation or timeout. -/
def decisionAccepted : Decision → Bool
  | .fired (some b) => b
  | .fired none => false
  | .cancelled => false
  | .timeout => false

/-- `SafeSet.Add`: no-op when the value is already present. -/
def setAdd {α : Type} [DecidableEq α] (s : List α) (v : α) : List α :=
  if v ∈ s then s else s ++ [v]

/-- `SafeSet.Remove`: the value is no longer contained afterwards. -/
def setRemove {α : Type} [DecidableEq α] (s : List α) (v : α) : List α :=
  s.filter (fun x => x ≠ v)

/-- State of `RobotManager_t` as far as registration observes it: the two
index maps, the `registeringRobots` safe set, the decision-event
subscriptions currently held by pending registrations, and (as an
observation) the list of event types published on the bus, in order. -/
structure RMTState where
  rm : RMState
  registeringRobots : List RegisteringRobot
  subscribedEvents : List String
  published : List String
deriving DecidableEq, Repr

def RMTState.empty : RMTState := ⟨RMState.empty, [], [], []⟩

/-- `RobotManager_t.handleRegisteringRobotEvent`, in source order: subscribe
to the decision event, add to the `registeringRobots` set, publish the
`registering_robot` event, wait (outcome `decision`), then close the
channel, unsubscribe and remove from the set.  Returns the final state and
`accepted`. -/
def handleRegisteringRobotEvent (st : RMTState) (deviceID ip robotType : String)
    (decision : Decision) : RMTState × Bool :=
  let regRobot : RegisteringRobot := ⟨deviceID, ip, robotType⟩
  let eventString := registeringEventString regRobot
  let st1 := { st with subscribedEvents := st.subscribedEvents ++ [eventString] }
  let st2 := { st1 with
      registeringRobots := setAdd st1.registeringRobots regRobot,
      published := st1.published ++ [REGISTERING_ROBOT_EVENT] }
  let accepted := decisionAccepted decision
  let st3 := { st2 with
      subscribedEvents := st2.subscribedEvents.erase eventString,
      registeringRobots := setRemove st2.registeringRobots regRobot }
  (st3, accepted)

/-- What the factory registered for a robot type does when invoked:
`connFunc(deviceID, ip)` either errors, or yields a connection handler
whose `GetHandler()` is `handler` and whose disconnect channel is nil iff
`hasDisconnectChannel = false`. -/
inductive FactorySpec where
  | createFails
  | makes (handler : RobotHandler) (hasDisconnectChannel : Bool)
deriving DecidableEq, Repr

/-- `ROBOT_FACTORY` as the registration pipeline consumes it. -/
def FactoryMap : Type := List (String × FactorySpec)

/-- `RobotManager_t.RegisterRobot(deviceID, ip, robotType, conn)`.  Source
order: write `REGISTERING\n` to the connection, run the admission wait,
and only if accepted consult `ROBOT_FACTORY`, build the handler and call
`AddRobot`; any `AddRobot` error (including `ErrRobotTransfer`) is mapped
to `ErrRobotAlreadyExists`; a nil disconnect channel removes the robot and
calls `DebugPanic` (a real panic only in debug mode) before returning
`ErrNoDisconnectChannel`.  Returns final state, the lines written to the
connection, and the outcome. -/
def RegisterRobotT (debugMode : Bool) (factory : FactoryMap) (st : RMTState)
    (deviceID ip robotType : String) (decision : Decision) :
    RMTState × List String × RMStatus :=
  let out0 := ["REGISTERING\n"]
  let hr := handleRegisteringRobotEvent st deviceID ip robotType decision
  let st1 := hr.fst
  if hr.snd = false then
    (st1, out0, .err .robotNotAccepted)
  else
    match goGet factory robotType with
    | none => (st1, out0, .err .noRobotTypeConnHandler)
    | some .createFails => (st1, out0, .err .createConnHandler)
    | some (.makes handler hasDisconnectChannel) =>
        let ar := AddRobot st1.rm deviceID ip handler
        let st2 := { st1 with rm := ar.fst }
        match ar.snd with
        | .ok =>
            if hasDisconnectChannel = false then
              let rr := RemoveRobot st2.rm deviceID ip
              let st3 := { st2 with rm := rr.fst }
              if debugMode then (st3, out0, .panic)
              else (st3, out0, .err .noDisconnectChannel)
            else (st2, out0, .ok)
        | _ => (st2, out0, .err .robotAlreadyExists)

/-! ### TCP REGISTER handler (tcp_server/register.go, `TCPServer_t` version) -/

/-- The `switch err` in `handleRegister`: four explicit cases, everything
else (including `ErrRobotNotAccepted`) falls to the `default` branch. -/
def errorCodeLine (e : RMError) : String :=
  match e with
  | .noRobotTypeConnHandler => "ERROR NO_ROBOT_TYPE_CONN_HANDLER\n"
  | .createConnHandler => "ERROR CREATE_CONN_HANDLER\n"
  | .robotAlreadyExists => "ERROR ROBOT_ALREADY_EXISTS\n"
  | .noDisconnectChannel => "ERROR NO_DISCONNECT_CHANNEL\n"
  | _ => "ERROR UNKNOWN\n"

/-- `handleRegister(s, conn, args)`: argument-count check, empty-type check,
then `RegisterRobot`; on error the switch above, on success `OK\n`.  The
returned list is every line written to the TCP connection, in order
(including the `REGISTERING\n` written inside `RegisterRobot`).  On a panic
nothing further is written. -/
def handleRegister (debugMode : Bool) (factory : FactoryMap) (st : RMTState)
    (args : List String) (remoteIP : String) (decision : Decision) :
    RMTState × List String :=
  if args.length < 3 then
    (st, ["ERROR REGISTER\n"])
  else
    match args with
    | _ :: robotTypeStr :: deviceID :: _ =>
        if robotTypeStr = "" then
          (st, ["ERROR INVALID_ROBOT_TYPE\n"])
        else
          let r := RegisterRobotT debugMode factory st deviceID remoteIP robotTypeStr decision
          match r.snd.snd with
          | .ok => (r.fst, r.snd.fst ++ ["OK\n"])
          | .err e => (r.fst, r.snd.fst ++ [errorCodeLine e])
          | .panic => (r.fst, r.snd.fst)
    | _ => (st, ["ERROR REGISTER\n"])

/-! ### Robot type registry (shared/utils.go `AddRobotType`, shared/debug.go
`DebugPanic`)

`DebugPanic` panics only when `DEBUG_MODE` is true; otherwise it logs
"CRITICAL ERROR (would panic in debug)" and returns, and execution
continues with the next statement.  Registered factory functions are
opaque; a `none` value models passing a nil `NewRobotConnHandlerFunc`. -/

inductive AddTypeResult where
  | ok
  | panics
deriving DecidableEq, Repr

/-- Tail of `AddRobotType` after the duplicate check: the nil-func check
(again a `DebugPanic`) followed by the unconditional map write
`ROBOT_FACTORY[robotType] = newFunc`. -/
def addRobotTypeStore (debugMode : Bool) (factory : List (String × Option Nat))
    (robotType : String) (newFunc : Option Nat) :
    List (String × Option Nat) × AddTypeResult :=
  if newFunc = none then
    if debugMode then (factory, .panics)
    else (goSet factory robotType newFunc, .ok)
  else (goSet factory robotType newFunc, .ok)

/-- `shared.AddRobotType(robotType, newFunc)`: when the type tag is already
present, `DebugPanic` fires; in debug mode that panics (table untouched),
otherwise it merely logs and the write below still runs. -/
def AddRobotType (debugMode : Bool) (factory : List (String × Option Nat))
    (robotType : String) (newFunc : Option Nat) :
    List (String × Option Nat) × AddTypeResult :=
  if (goGet factory robotType).isSome then
    if debugMode then (factory, .panics)
    else addRobotTypeStore debugMode factory robotType newFunc
  else addRobotTypeStore debugMode factory robotType newFunc

/-! ### Go channels and the safe-close primitives (shared/utils.go)

A channel is its closed flag plus the queue of buffered values (element
type irrelevant, taken as `Bool`).  `close` on an already-closed channel is
a runtime panic.  `isChannelClosed` performs the `reflect.Select`
non-blocking receive of the source: when a buffered value is available it
is *consumed* and `ok = true` is reported (so the channel is deemed open,
even if it is in fact closed); on an empty closed channel the receive
yields `ok = false`; on an empty open channel the default case fires. -/

structure GoChan where
  closed : Bool
  buffer : List Bool
deriving DecidableEq, Repr

inductive CloseResult where
  | ok (ch : GoChan)
  | panics
deriving DecidableEq, Repr

def closeChan (ch : GoChan) : CloseResult :=
  if ch.closed then .panics else .ok { ch with closed := true }

def isChannelClosed (ch : GoChan) : GoChan × Bool :=
  match ch.buffer with
  | _ :: rest => ({ ch with buffer := rest }, false)
  | [] => if ch.closed then (ch, true) else (ch, false)

/-- `shared.SafeCloseChannel`: close unless the probe says the channel is
already closed.  (The surrounding mutex serialises callers; sequential
state suffices.) -/
def SafeCloseChannel (ch : GoChan) : CloseResult :=
  let probe := isChannelClosed ch
  if probe.snd = false then closeChan probe.fst else .ok probe.fst

/-- Channel state owned by a blocking `SafeQueue`: `done` (`chan struct{}`,
unbuffered), `nextCh` (unbuffered), `notifyCh` (buffered, capacity 1). -/
structure SafeQueueChans where
  done : GoChan
  nextCh : GoChan
  notifyCh : GoChan
deriving DecidableEq, Repr

/-- `SafeQueue.Close`: `SafeCloseChannel` on `done`, `nextCh`, `notifyCh`
in that order.  `none` models a panic escaping `Close`. -/
def SafeQueueClose (q : SafeQueueChans) : Option SafeQueueChans :=
  match SafeCloseChannel q.done with
  | .panics => none
  | .ok d =>
      match SafeCloseChannel q.nextCh with
      | .panics => none
      | .ok n =>
          match SafeCloseChannel q.notifyCh with
          | .panics => none
          | .ok no => some ⟨d, n, no⟩

/-! ### SSE fan-out gateway (http_server/http_events) -/

/-- The authenticated user session (`shared.Session`); only its identity
matters here. -/
structure UserSession where
  userID : String
deriving DecidableEq, Repr

/-- `EventSession`: the user session plus the server-assigned
`time.Now().UnixMilli()` timestamp and 16-character random id minted by
`NewEventSession` for each stream open. -/
structure EventSession where
  session : UserSession
  timestamp : Int
  randomID : String
deriving DecidableEq, Repr

/-- `NewEventSession(session)`; the timestamp and random id are
nondeterministic inputs of the run. -/
def NewEventSession (session : UserSession) (nowMilli : Int) (randomID : String) :
    EventSession :=
  ⟨session, nowMilli, randomID⟩

/-- An `EventsClient` as the gateway observes it: identity, its session
record, and the `ended` flag (set exactly by `cleanup`). -/
structure EventsClient where
  cid : Nat
  sess : EventSession
  ended : Bool
deriving DecidableEq, Repr

/-- The gateway's client map `SafeMap[EventSession, *EventsClient]`. -/
structure EventsManager where
  clients : List (EventSession × EventsClient)
deriving DecidableEq, Repr

/-- `EventsClient.cleanup`: guarded by the `ended` flag; afterwards the
flag is set (closing `done`, closing the queue, deleting the map entry and
unsubscribing happen on the first call only). -/
def cleanupClient (c : EventsClient) : EventsClient :=
  if c.ended then c else { c with ended := true }

/-- `EventsManager_t.RegisterClient(sess, w)`: build the fresh client, pop
any client registered under the *same* `EventSession`, clean it up, store
the new client, start it.  Returns the new manager state, the new client,
and the evicted (cleaned-up) client when one existed. -/
def RegisterClient (em : EventsManager) (sess : EventSession) (freshCid : Nat) :
    EventsManager × EventsClient × Option EventsClient :=
  let client : EventsClient := ⟨freshCid, sess, false⟩
  match goGet em.clients sess with
  | some oldClient =>
      let popped : EventsManager := ⟨goDelete em.clients sess⟩
      let cleaned := cleanupClient oldClient
      (⟨goSet popped.clients sess client⟩, client, some cleaned)
  | none =>
      (⟨goSet em.clients sess client⟩, client, none)

/-! ### Event bus delivery (part of package event_bus, `EventBus_t.Publish`)

Handlers are opaque code whose only observable here is whether invoking
them panics.  `Publish` looks up the subscriber set of the event type and,
for each subscriber with a registered handler, acquires the limiter slot
and spawns `go func() { defer func() { <-limiter }(); handler(event) }()`.
That goroutine body contains no `recover`; by Go semantics an unrecovered
panic in any goroutine terminates the entire process. -/

inductive HandlerCode where
  | silent
  | panicking
deriving DecidableEq, Repr

def handlerPanics : HandlerCode → Bool
  | .silent => false
  | .panicking => true

structure Subscriber where
  id : String
deriving DecidableEq, Repr

structure EventBus where
  subscriptions : List (String × List Subscriber)
  handlers : List (Subscriber × List (String × HandlerCode))
deriving DecidableEq, Repr

/-- The deliveries scheduled by one `Publish(event)` of type `eventType`:
the snapshot of the subscriber set, filtered to those whose handler lookup
succeeds (a failed lookup is lazily unsubscribed instead of delivered). -/
def publishDeliveries (eb : EventBus) (eventType : String) :
    List (Subscriber × HandlerCode) :=
  match goGet eb.subscriptions eventType with
  | none => []
  | some subs =>
      subs.filterMap fun sub =>
        match goGet eb.handlers sub with
        | none => none
        | some mp =>
            match goGet mp eventType with
            | none => none
            | some h => some (sub, h)

/-- True when some delivery goroutine of this publish panics: its body has
no `recover`, so the panic is unhandled and the Go runtime terminates the
whole process. -/
def publishCrashesProcess (eb : EventBus) (eventType : String) : Bool :=
  (publishDeliveries eb eventType).any fun d => handlerPanics d.snd

/-- Number of handler invocations subscriber `sub` receives from one
publish of `eventType`. -/
def deliveriesToSubscriber (eb : EventBus) (eventType : String) (sub : Subscriber) :
    Nat :=
  ((publishDeliveries eb eventType).filter fun d => d.fst = sub).length

/-- Deliveries `sub` receives from a publish of `eventType` that follows an
earlier publish of the same event type: zero when the earlier publish
already crashed the process. -/
def deliveriesAfterPriorPublish (eb : EventBus) (eventType : String)
    (sub : Subscriber) : Nat :=
  if publishCrashesProcess eb eventType then 0
  else deliveriesToSubscriber eb eventType sub

/-! ### Concrete scenario data used by the theorems below -/

/-- Handler created by the first registration of `dev-001` at `10.0.0.7`. -/
def hA : RobotHandler := ⟨1, "dev-001", "10.0.0.7"⟩

/-- Handler created by the re-registration of `dev-001` at `10.0.0.8`
(discarded by the transfer branch of `AddRobot`). -/
def hB : RobotHandler := ⟨2, "dev-001", "10.0.0.8"⟩

/-- A factory registry holding the `proximity_sensor_robot` type. -/
def proximityFactory : FactoryMap :=
  [("proximity_sensor_robot", FactorySpec.makes ⟨3, "dev-001", "10.0.0.7"⟩ true)]

/-- Two SSE streams opened by the same user session: `NewEventSession`
mints a fresh timestamp and random id for each open. -/
def aliceStream1 : EventSession := NewEventSession ⟨"alice"⟩ 1000 "rand-aaaa"

def aliceStream2 : EventSession := NewEventSession ⟨"alice"⟩ 2000 "rand-bbbb"

def busSub1 : Subscriber := ⟨"subscriber-1"⟩

def busSub2 : Subscriber := ⟨"subscriber-2"⟩

/-- An event bus with two subscribers to `"E"`, the first of which panics
when its handler runs. -/
def isolationBus : EventBus :=
  ⟨[("E", [busSub1, busSub2])],
   [(busSub1, [("E", HandlerCode.panicking)]),
    (busSub2, [("E", HandlerCode.silent)])]⟩

/-! ### Helper lemmas about the Go map model -/

theorem goGet_goSet_self {κ α : Type} [DecidableEq κ] (m : List (κ × α)) (k : κ)
    (v : α) : goGet (goSet m k v) k = some v := by
  induction m with
  | nil => simp [goSet, goGet]
  | cons hd tl ih =>
      obtain ⟨k', v'⟩ := hd
      by_cases h : k' = k
      · simp [goSet, goGet, h]
      · simp [goSet, goGet, h, ih]

theorem mem_keys_goSet {κ α : Type} [DecidableEq κ] (m : List (κ × α)) (k a : κ)
    (v : α) : a ∈ (goSet m k v).map Prod.fst ↔ a ∈ m.map Prod.fst ∨ a = k := by
  induction m with
  | nil => simp [goSet]
  | cons hd tl ih =>
      obtain ⟨k', v'⟩ := hd
      by_cases h : k' = k
      · subst h
        simp [goSet]
        tauto
      · simp [goSet, h, ih]
        tauto

theorem goSet_keys_nodup {κ α : Type} [DecidableEq κ] (m : List (κ × α)) (k : κ)
    (v : α) (hm : (m.map Prod.fst).Nodup) :
    ((goSet m k v).map Prod.fst).Nodup := by
  induction m with
  | nil => simp [goSet]
  | cons hd tl ih =>
      obtain ⟨k', v'⟩ := hd
      rw [List.map_cons, List.nodup_cons] at hm
      by_cases h : k' = k
      · subst h
        rw [show goSet ((k', v') :: tl) k' v = (k', v) :: tl by simp [goSet],
          List.map_cons, List.nodup_cons]
        exact hm
      · rw [show goSet ((k', v') :: tl) k v = (k', v') :: goSet tl k v by
            simp [goSet, h],
          List.map_cons, List.nodup_cons]
        refine ⟨?_, ih hm.2⟩
        rw [mem_keys_goSet]
        push_neg
        exact ⟨hm.1, h⟩

theorem goDelete_sublist {κ α : Type} [DecidableEq κ] (m : List (κ × α)) (k : κ) :
    (goDelete m k).Sublist m := by
  induction m with
  | nil => simp [goDelete]
  | cons hd tl ih =>
      obtain ⟨k', v'⟩ := hd
      by_cases h : k' = k
      · rw [show goDelete ((k', v') :: tl) k = tl by simp [goDelete, h]]
        exact List.sublist_cons_self (k', v') tl
      · rw [show goDelete ((k', v') :: tl) k = (k', v') :: goDelete tl k by
            simp [goDelete, h]]
        exact ih.cons₂ (k', v')

theorem goDelete_keys_nodup {κ α : Type} [DecidableEq κ] (m : List (κ × α))
    (k : κ) (hm : (m.map Prod.fst).Nodup) :
    ((goDelete m k).map Prod.fst).Nodup :=
  hm.sublist ((goDelete_sublist m k).map Prod.fst)

/-- A channel whose buffer is drained closes cleanly to the closed-empty
state, whether or not it was already closed. -/
theorem safeCloseChannel_empty_buffer (ch : GoChan) (h : ch.buffer = []) :
    SafeCloseChannel ch = CloseResult.ok ⟨true, []⟩ := by
  obtain ⟨closed, buffer⟩ := ch
  subst h
  cases closed <;> simp [SafeCloseChannel, isChannelClosed, closeChan]

/-- A channel holding at most one buffered value, and none at all if it is
already closed, also closes cleanly (this covers the queue's capacity-one
`notifyCh`, which `Close` itself drains before closing). -/
theorem safeCloseChannel_small (ch : GoChan) (hlen : ch.buffer.length ≤ 1)
    (hc : ch.closed = true → ch.buffer = []) :
    SafeCloseChannel ch = CloseResult.ok ⟨true, []⟩ := by
  obtain ⟨closed, buffer⟩ := ch
  cases buffer with
  | nil => exact safeCloseChannel_empty_buffer ⟨closed, []⟩ rfl
  | cons v rest =>
      cases rest with
      | nil =>
          have hopen : closed = false := by
            cases closed
            · rfl
            · simpa using hc rfl
          subst hopen
          simp [SafeCloseChannel, isChannelClosed, closeChan]
      | cons v2 rest2 => simp at hlen

/-- The admission wait returns `accepted` exactly as `decisionAccepted`
computes it from the `select` outcome. -/
theorem handleRegisteringRobotEvent_snd (st : RMTState)
    (deviceID ip robotType : String) (decision : Decision) :
    (handleRegisteringRobotEvent st deviceID ip robotType decision).snd
      = decisionAccepted decision := rfl

/-! ### Claim theorems -/

/-- Claim C1 (code bug).  Dual-index consistency fails on the very
sequence the claim singles out: `AddRobot` for the same device at a new IP
reports a transfer but keeps the original handler, whose recorded IP field
still holds the old address; `RemoveRobot` by device id then deletes
`robotsByIP[handler.GetIP()]`, i.e. the *old* key, and the entry under the
new IP is orphaned.  After the sequence `robotsByID` is empty while
`robotsByIP` still holds one entry, so the two indices have different
cardinalities. -/
theorem C1_transfer_then_remove_breaks_index_consistency :
    (AddRobot (AddRobot RMState.empty "dev-001" "10.0.0.7" hA).fst
        "dev-001" "10.0.0.8" hB).snd = RMStatus.err RMError.robotTransfer ∧
    (RemoveRobot (AddRobot (AddRobot RMState.empty "dev-001" "10.0.0.7" hA).fst
        "dev-001" "10.0.0.8" hB).fst "dev-001" "").snd = RMStatus.ok ∧
    (RemoveRobot (AddRobot (AddRobot RMState.empty "dev-001" "10.0.0.7" hA).fst
        "dev-001" "10.0.0.8" hB).fst "dev-001" "").fst.robotsByID = [] ∧
    (RemoveRobot (AddRobot (AddRobot RMState.empty "dev-001" "10.0.0.7" hA).fst
        "dev-001" "10.0.0.8" hB).fst "dev-001" "").fst.robotsByIP
      = [("10.0.0.8", hA)] ∧
    (RemoveRobot (AddRobot (AddRobot RMState.empty "dev-001" "10.0.0.7" hA).fst
        "dev-001" "10.0.0.8" hB).fst "dev-001" "").fst.robotsByID.length
      ≠ (RemoveRobot (AddRobot (AddRobot RMState.empty "dev-001" "10.0.0.7" hA).fst
        "dev-001" "10.0.0.8" hB).fst "dev-001" "").fst.robotsByIP.length := by
  decide

/-- Claim C3 (code bug).  A transfer `AddRobot("dev-001", "10.0.0.8", hB)`
for a device live at `10.0.0.7` does return the robot-transfer signal and
rewrites `robotsByIP` from the old to the new key, but the retained handler
record is never updated, so `GetRobot("dev-001", "")` still reports the old
IP `10.0.0.7`, not `10.0.0.8` as the claim requires. -/
theorem C3_transfer_reports_stale_ip :
    (AddRobot (AddRobot RMState.empty "dev-001" "10.0.0.7" hA).fst
        "dev-001" "10.0.0.8" hB).snd = RMStatus.err RMError.robotTransfer ∧
    goGet (AddRobot (AddRobot RMState.empty "dev-001" "10.0.0.7" hA).fst
        "dev-001" "10.0.0.8" hB).fst.robotsByIP "10.0.0.8" = some hA ∧
    goGet (AddRobot (AddRobot RMState.empty "dev-001" "10.0.0.7" hA).fst
        "dev-001" "10.0.0.8" hB).fst.robotsByIP "10.0.0.7" = none ∧
    GetRobot (AddRobot (AddRobot RMState.empty "dev-001" "10.0.0.7" hA).fst
        "dev-001" "10.0.0.8" hB).fst "dev-001" ""
      = GetResult.ok ⟨"dev-001", "10.0.0.7"⟩ ∧
    GetRobot (AddRobot (AddRobot RMState.empty "dev-001" "10.0.0.7" hA).fst
        "dev-001" "10.0.0.8" hB).fst "dev-001" ""
      ≠ GetResult.ok ⟨"dev-001", "10.0.0.8"⟩ := by
  decide

/-- Claim C10 (code bug).  On a manager that knows neither identifier,
`GetRobot` and `RemoveRobot` with both identifiers supplied do not return
the robot-not-found error: both nil lookups compare equal, the code takes
the "same robot" branch and calls a method on the nil handler — a runtime
panic. -/
theorem C10_dual_lookup_of_absent_robot_panics :
    GetRobot RMState.empty "dev-001" "10.0.0.1" = GetResult.panic ∧
    RemoveRobot RMState.empty "dev-001" "10.0.0.1" = (RMState.empty, RMStatus.panic) := by
  decide

/-- Claim C5 (code bug).  The delivery goroutine spawned by `Publish` has
no `recover`, so one panicking handler's panic is unhandled and terminates
the Go process; a subsequent publish of the same event type therefore
delivers nothing to the surviving subscriber (it would have received
exactly one delivery had the process survived). -/
theorem C5_handler_panic_kills_subsequent_delivery :
    publishCrashesProcess isolationBus "E" = true ∧
    deliveriesAfterPriorPublish isolationBus "E" busSub2 = 0 ∧
    deliveriesToSubscriber isolationBus "E" busSub2 = 1 := by
  decide

/-- Claim C2, counterexample.  A rejected `REGISTER` over TCP is answered
with `ERROR UNKNOWN\n`, not `ERROR ROBOT_NOT_ACCEPTED\n`: the `switch err`
in `handleRegister` has no case for `ErrRobotNotAccepted`, so the default
branch fires. -/
theorem C2_reject_emits_error_unknown :
    (handleRegister false proximityFactory RMTState.empty
        ["REGISTER", "proximity_sensor_robot", "dev-001"] "10.0.0.7"
        (Decision.fired (some false))).snd
      = ["REGISTERING\n", "ERROR UNKNOWN\n"] ∧
    "ERROR ROBOT_NOT_ACCEPTED\n" ∉
      (handleRegister false proximityFactory RMTState.empty
        ["REGISTER", "proximity_sensor_robot", "dev-001"] "10.0.0.7"
        (Decision.fired (some false))).snd := by
  decide

/-- Claim C2, amended.  When the admission decision is a reject,
`RegisterRobot` does return the robot-not-accepted error, but
`handleRegister` answers the TCP client with `ERROR UNKNOWN\n` (after the
provisional `REGISTERING\n`), because its error switch lacks a
`ROBOT_NOT_ACCEPTED` case. -/
theorem C2_reject_returns_not_accepted_and_unknown_line (debugMode : Bool)
    (factory : FactoryMap) (st : RMTState)
    (robotTypeStr deviceID remoteIP : String) (decision : Decision)
    (hty : robotTypeStr ≠ "") (hrej : decisionAccepted decision = false) :
    (RegisterRobotT debugMode factory st deviceID remoteIP robotTypeStr
        decision).snd.snd = RMStatus.err RMError.robotNotAccepted ∧
    (handleRegister debugMode factory st ["REGISTER", robotTypeStr, deviceID]
        remoteIP decision).snd = ["REGISTERING\n", "ERROR UNKNOWN\n"] := by
  unfold handleRegister RegisterRobotT
  simp [handleRegisteringRobotEvent_snd, hty, hrej, errorCodeLine]

/-- Witness for the amended C2 theorem at a concrete reject. -/
theorem C2_reject_returns_not_accepted_and_unknown_line_witness :
    (RegisterRobotT false proximityFactory RMTState.empty "dev-001" "10.0.0.7"
        "proximity_sensor_robot" (Decision.fired (some false))).snd.snd
      = RMStatus.err RMError.robotNotAccepted ∧
    (handleRegister false proximityFactory RMTState.empty
        ["REGISTER", "proximity_sensor_robot", "dev-001"] "10.0.0.7"
        (Decision.fired (some false))).snd
      = ["REGISTERING\n", "ERROR UNKNOWN\n"] :=
  C2_reject_returns_not_accepted_and_unknown_line false proximityFactory
    RMTState.empty "proximity_sensor_robot" "dev-001" "10.0.0.7"
    (Decision.fired (some false)) (by decide) (by decide)

/-- Claim C4, counterexample.  With an empty factory registry the type
`"ghost"` is unknown, yet `RegisterRobot` publishes the
`registering_robot` event (and runs the whole admission wait) before the
unknown type is noticed: when the operator rejects, the call returns
robot-not-accepted, not the unknown-type failure; when the operator
accepts, the unknown-type failure is returned only after the event was
published. -/
theorem C4_unknown_type_not_rejected_first :
    (RegisterRobotT false [] RMTState.empty "dev-001" "10.0.0.7" "ghost"
        (Decision.fired (some false))).snd.snd
      = RMStatus.err RMError.robotNotAccepted ∧
    (RegisterRobotT false [] RMTState.empty "dev-001" "10.0.0.7" "ghost"
        (Decision.fired (some false))).snd.snd
      ≠ RMStatus.err RMError.noRobotTypeConnHandler ∧
    (RegisterRobotT false [] RMTState.empty "dev-001" "10.0.0.7" "ghost"
        (Decision.fired (some true))).snd.snd
      = RMStatus.err RMError.noRobotTypeConnHandler ∧
    (RegisterRobotT false [] RMTState.empty "dev-001" "10.0.0.7" "ghost"
        (Decision.fired (some true))).fst.published
      = [REGISTERING_ROBOT_EVENT] := by
  decide

/-- Claim C4, amended.  For an unknown robot type, `RegisterRobot` runs the
full admission workflow first: it publishes the `registering_robot` event
and passes the registration through the pending set in every case; the
unknown-type failure is returned only when the operator accepts, and a
non-accepted decision yields robot-not-accepted instead.  The index maps
are untouched either way. -/
theorem C4_unknown_type_fails_after_admission (debugMode : Bool)
    (factory : FactoryMap) (st : RMTState) (deviceID ip robotType : String)
    (decision : Decision) (hunknown : goGet factory robotType = none) :
    (RegisterRobotT debugMode factory st deviceID ip robotType decision).snd.snd
      = (if decisionAccepted decision then
          RMStatus.err RMError.noRobotTypeConnHandler
        else RMStatus.err RMError.robotNotAccepted) ∧
    (RegisterRobotT debugMode factory st deviceID ip robotType decision).fst.published
      = st.published ++ [REGISTERING_ROBOT_EVENT] ∧
    (⟨deviceID, ip, robotType⟩ : RegisteringRobot) ∉
      (RegisterRobotT debugMode factory st deviceID ip robotType
        decision).fst.registeringRobots ∧
    (RegisterRobotT debugMode factory st deviceID ip robotType decision).fst.rm
      = st.rm := by
  unfold RegisterRobotT handleRegisteringRobotEvent
  cases hacc : decisionAccepted decision <;>
    simp [hacc, hunknown, setRemove, List.mem_filter]

/-- Witness for the amended C4 theorem at a concrete unknown type. -/
theorem C4_unknown_type_fails_after_admission_witness :
    (RegisterRobotT false [] RMTState.empty "dev-001" "10.0.0.7" "ghost"
        (Decision.fired (some true))).snd.snd
      = (if decisionAccepted (Decision.fired (some true)) then
          RMStatus.err RMError.noRobotTypeConnHandler
        else RMStatus.err RMError.robotNotAccepted) ∧
    (RegisterRobotT false [] RMTState.empty "dev-001" "10.0.0.7" "ghost"
        (Decision.fired (some true))).fst.published
      = RMTState.empty.published ++ [REGISTERING_ROBOT_EVENT] ∧
    (⟨"dev-001", "10.0.0.7", "ghost"⟩ : RegisteringRobot) ∉
      (RegisterRobotT false [] RMTState.empty "dev-001" "10.0.0.7" "ghost"
        (Decision.fired (some true))).fst.registeringRobots ∧
    (RegisterRobotT false [] RMTState.empty "dev-001" "10.0.0.7" "ghost"
        (Decision.fired (some true))).fst.rm = RMTState.empty.rm :=
  C4_unknown_type_fails_after_admission false [] RMTState.empty "dev-001"
    "10.0.0.7" "ghost" (Decision.fired (some true)) (by decide)

/-- Claim C6, counterexample.  Two SSE streams opened by the same user
session receive distinct `EventSession` keys (fresh timestamp and random
id), so the second `RegisterClient` pops nothing, evicts nothing, and the
gateway map ends up holding two live (non-ended) clients for the one user
session `"alice"`. -/
theorem C6_two_live_clients_for_one_user_session :
    (RegisterClient (RegisterClient ⟨[]⟩ aliceStream1 1).fst aliceStream2 2).snd.snd
      = none ∧
    (RegisterClient (RegisterClient ⟨[]⟩ aliceStream1 1).fst aliceStream2 2).fst.clients
      = [(aliceStream1, ⟨1, aliceStream1, false⟩),
         (aliceStream2, ⟨2, aliceStream2, false⟩)] ∧
    aliceStream1.session = aliceStream2.session ∧
    aliceStream1 ≠ aliceStream2 := by
  decide

/-- Claim C6, amended.  Eviction is keyed by the full `EventSession`
(stream instance), not by the underlying user session: registering under
an `EventSession` always leaves exactly that key mapped to the fresh live
client with no duplicate keys, and when a client was already registered
under the *same* `EventSession` it is popped and cleaned up (its `ended`
flag set) before the new client is stored; distinct `EventSession`s — even
for one user session — evict nothing. -/
theorem C6_eviction_keyed_by_event_session (em : EventsManager)
    (sess : EventSession) (freshCid : Nat)
    (hkeys : (em.clients.map Prod.fst).Nodup) :
    goGet (RegisterClient em sess freshCid).fst.clients sess
      = some ⟨freshCid, sess, false⟩ ∧
    ((RegisterClient em sess freshCid).fst.clients.map Prod.fst).Nodup ∧
    (∀ old : EventsClient, goGet em.clients sess = some old →
      (RegisterClient em sess freshCid).snd.snd = some (cleanupClient old) ∧
      (cleanupClient old).ended = true) ∧
    (goGet em.clients sess = none →
      (RegisterClient em sess freshCid).snd.snd = none) := by
  unfold RegisterClient
  cases hlook : goGet em.clients sess with
  | none =>
      simp [hlook, goGet_goSet_self, goSet_keys_nodup _ _ _ hkeys]
  | some old =>
      refine ⟨by simp [hlook, goGet_goSet_self], ?_, ?_, by simp [hlook]⟩
      · simpa [hlook] using
          goSet_keys_nodup _ sess (⟨freshCid, sess, false⟩ : EventsClient)
            (goDelete_keys_nodup _ sess hkeys)
      · intro old2 hold2
        obtain rfl : old = old2 := by injection hold2
        refine ⟨by simp, ?_⟩
        by_cases ho : old.ended <;> simp [cleanupClient, ho]

/-- Witness for the amended C6 theorem: re-registering under the identical
`EventSession` evicts and cleans up the prior client. -/
theorem C6_eviction_keyed_by_event_session_witness :
    goGet (RegisterClient ⟨[(aliceStream1, ⟨7, aliceStream1, false⟩)]⟩
        aliceStream1 8).fst.clients aliceStream1
      = some ⟨8, aliceStream1, false⟩ ∧
    ((RegisterClient ⟨[(aliceStream1, ⟨7, aliceStream1, false⟩)]⟩
        aliceStream1 8).fst.clients.map Prod.fst).Nodup ∧
    (∀ old : EventsClient,
      goGet ([(aliceStream1, ⟨7, aliceStream1, false⟩)] :
          List (EventSession × EventsClient)) aliceStream1 = some old →
      (RegisterClient ⟨[(aliceStream1, ⟨7, aliceStream1, false⟩)]⟩
          aliceStream1 8).snd.snd = some (cleanupClient old) ∧
      (cleanupClient old).ended = true) ∧
    (goGet ([(aliceStream1, ⟨7, aliceStream1, false⟩)] :
        List (EventSession × EventsClient)) aliceStream1 = none →
      (RegisterClient ⟨[(aliceStream1, ⟨7, aliceStream1, false⟩)]⟩
          aliceStream1 8).snd.snd = none) :=
  C6_eviction_keyed_by_event_session
    ⟨[(aliceStream1, ⟨7, aliceStream1, false⟩)]⟩ aliceStream1 8 (by decide)

/-- Claim C7, counterexample.  With debug mode off (the production
default), a second `AddRobotType` for an existing tag silently overwrites
the registered factory: `DebugPanic` only logs, and the map write still
runs. -/
theorem C7_duplicate_overwrites_without_debug :
    AddRobotType false [("trash", some 1)] "trash" (some 2)
      = ([("trash", some 2)], AddTypeResult.ok) ∧
    goGet (AddRobotType false [("trash", some 1)] "trash" (some 2)).fst "trash"
      ≠ some (some 1) := by
  decide

/-- Claim C7, amended.  Duplicate factory registration is rejected only in
debug mode, where `DebugPanic` panics and the table is left unchanged;
with debug mode off the duplicate silently overwrites the previously
registered factory. -/
theorem C7_duplicate_registration_depends_on_debug
    (factory : List (String × Option Nat)) (robotType : String)
    (f0 newFunc : Option Nat) (hdup : goGet factory robotType = some f0) :
    AddRobotType true factory robotType newFunc
      = (factory, AddTypeResult.panics) ∧
    (AddRobotType false factory robotType newFunc).fst
      = goSet factory robotType newFunc ∧
    goGet (AddRobotType false factory robotType newFunc).fst robotType
      = some newFunc := by
  unfold AddRobotType addRobotTypeStore
  cases newFunc <;> simp [hdup, goGet_goSet_self]

/-- Witness for the amended C7 theorem at a concrete duplicate. -/
theorem C7_duplicate_registration_depends_on_debug_witness :
    AddRobotType true [("trash", some 1)] "trash" (some 2)
      = ([("trash", some 1)], AddTypeResult.panics) ∧
    (AddRobotType false [("trash", some 1)] "trash" (some 2)).fst
      = goSet [("trash", some 1)] "trash" (some 2) ∧
    goGet (AddRobotType false [("trash", some 1)] "trash" (some 2)).fst "trash"
      = some (some 2) :=
  C7_duplicate_registration_depends_on_debug [("trash", some 1)] "trash"
    (some 1) (some 2) (by decide)

/-- Claim C8 (confirmed).  When the admission wait ends by the
`REGISTERING_WAIT_TIMEOUT` timeout (neither an accept nor a reject
decision arrived), `RegisterRobot` returns robot-not-accepted, the
decision-event subscription taken for this registration is removed again,
and the pending set no longer contains the registration. -/
theorem C8_admission_timeout_cleanup (debugMode : Bool) (factory : FactoryMap)
    (st : RMTState) (deviceID ip robotType : String)
    (hsub : registeringEventString ⟨deviceID, ip, robotType⟩ ∉ st.subscribedEvents) :
    (RegisterRobotT debugMode factory st deviceID ip robotType
        Decision.timeout).snd.snd = RMStatus.err RMError.robotNotAccepted ∧
    (⟨deviceID, ip, robotType⟩ : RegisteringRobot) ∉
      (RegisterRobotT debugMode factory st deviceID ip robotType
        Decision.timeout).fst.registeringRobots ∧
    (RegisterRobotT debugMode factory st deviceID ip robotType
        Decision.timeout).fst.subscribedEvents = st.subscribedEvents := by
  unfold RegisterRobotT handleRegisteringRobotEvent
  simp [decisionAccepted, setRemove, List.mem_filter,
    List.erase_append_right _ hsub, List.erase_cons_head]

/-- Witness for the C8 theorem at a concrete timed-out registration. -/
theorem C8_admission_timeout_cleanup_witness :
    (RegisterRobotT false proximityFactory RMTState.empty "dev-001" "10.0.0.7"
        "proximity_sensor_robot" Decision.timeout).snd.snd
      = RMStatus.err RMError.robotNotAccepted ∧
    (⟨"dev-001", "10.0.0.7", "proximity_sensor_robot"⟩ : RegisteringRobot) ∉
      (RegisterRobotT false proximityFactory RMTState.empty "dev-001" "10.0.0.7"
        "proximity_sensor_robot" Decision.timeout).fst.registeringRobots ∧
    (RegisterRobotT false proximityFactory RMTState.empty "dev-001" "10.0.0.7"
        "proximity_sensor_robot" Decision.timeout).fst.subscribedEvents
      = RMTState.empty.subscribedEvents :=
  C8_admission_timeout_cleanup false proximityFactory RMTState.empty "dev-001"
    "10.0.0.7" "proximity_sensor_robot" (by decide)

/-- Claim C9, counterexample.  `SafeCloseChannel` invoked twice on one
channel can panic: on a buffered channel holding values, the closed-probe
receives a value (`ok = true`) and concludes the channel is open, so the
second call closes an already-closed channel — the very panic the
primitive is meant to prevent. -/
theorem C9_double_safeclose_on_buffered_channel_panics :
    SafeCloseChannel ⟨false, [true, true]⟩ = CloseResult.ok ⟨true, [true]⟩ ∧
    SafeCloseChannel ⟨true, [true]⟩ = CloseResult.panics := by
  decide

/-- Claim C9, amended.  The safe-close primitives are idempotent on
drained resources: a channel with no buffered values closes cleanly and
every further `SafeCloseChannel` is a panic-free no-op; `SafeQueue.Close`
(whose `done`/`nextCh` are unbuffered and whose capacity-one `notifyCh` is
drained by the probe) is idempotent; `EventsClient.cleanup` is idempotent
via its `ended` guard.  Only a channel that still holds buffered values
can make a repeated `SafeCloseChannel` panic. -/
theorem C9_safeclose_idempotent_on_drained_resources (ch : GoChan)
    (q : SafeQueueChans) (c : EventsClient)
    (hch : ch.buffer = []) (hdone : q.done.buffer = [])
    (hnext : q.nextCh.buffer = [])
    (hnotify : q.notifyCh.buffer.length ≤ 1)
    (hnotifyClosed : q.notifyCh.closed = true → q.notifyCh.buffer = []) :
    SafeCloseChannel ch = CloseResult.ok ⟨true, []⟩ ∧
    SafeCloseChannel (⟨true, []⟩ : GoChan) = CloseResult.ok ⟨true, []⟩ ∧
    SafeQueueClose q = some ⟨⟨true, []⟩, ⟨true, []⟩, ⟨true, []⟩⟩ ∧
    SafeQueueClose (⟨⟨true, []⟩, ⟨true, []⟩, ⟨true, []⟩⟩ : SafeQueueChans)
      = some ⟨⟨true, []⟩, ⟨true, []⟩, ⟨true, []⟩⟩ ∧
    cleanupClient (cleanupClient c) = cleanupClient c := by
  refine ⟨safeCloseChannel_empty_buffer ch hch, by decide, ?_, by decide, ?_⟩
  · unfold SafeQueueClose
    rw [safeCloseChannel_empty_buffer q.done hdone,
      safeCloseChannel_empty_buffer q.nextCh hnext,
      safeCloseChannel_small q.notifyCh hnotify hnotifyClosed]
  · by_cases ho : c.ended <;> simp [cleanupClient, ho]

/-- Witness for the amended C9 theorem on concrete drained resources. -/
theorem C9_safeclose_idempotent_on_drained_resources_witness :
    SafeCloseChannel (⟨false, []⟩ : GoChan) = CloseResult.ok ⟨true, []⟩ ∧
    SafeCloseChannel (⟨true, []⟩ : GoChan) = CloseResult.ok ⟨true, []⟩ ∧
    SafeQueueClose ⟨⟨false, []⟩, ⟨false, []⟩, ⟨false, [true]⟩⟩
      = some ⟨⟨true, []⟩, ⟨true, []⟩, ⟨true, []⟩⟩ ∧
    SafeQueueClose (⟨⟨true, []⟩, ⟨true, []⟩, ⟨true, []⟩⟩ : SafeQueueChans)
      = some ⟨⟨true, []⟩, ⟨true, []⟩, ⟨true, []⟩⟩ ∧
    cleanupClient (cleanupClient ⟨1, aliceStream1, false⟩)
      = cleanupClient ⟨1, aliceStream1, false⟩ :=
  C9_safeclose_idempotent_on_drained_resources ⟨false, []⟩
    ⟨⟨false, []⟩, ⟨false, []⟩, ⟨false, [true]⟩⟩ ⟨1, aliceStream1, false⟩
    rfl rfl rfl (by decide) (by decide)

end Robomesh
